import Mathlib

/-!
# AM2301 (DHT21) driver: a shallow embedding of `am2301.c`

The development follows the source file top to bottom:

* `expectPulse` : the busy-polling pulse sampler;
* `run`         : handshake, capture of 80 durations, bit interpretation,
                  checksum validation and extraction;
* `am2301_show` : the report line;
* `am2301_open` : the measurement throttle.

Machine integers are natural numbers or integers with explicit reduction
modulo the width where the C code can wrap.  The hardware is an explicit
`World`: the successive values that `gpio_get_value(gpio)` and
`ktime_get_real_ns()` return.  A function returns `none` only when the
recorded readings end before the C code would have stopped asking for them.
-/

namespace AM2301

/-! ## Constants -/

/-- `#define MEASUREMENT_PERIOD 2000` (milliseconds). -/
def MEASUREMENT_PERIOD : Int := 2000

/-- `#define HIGH 1`. -/
def HIGH : Int := 1

/-- `#define LOW 0`. -/
def LOW : Int := 0

/-- `#define WAITTIMEOUT 0xFFFFFFFFFFFFFFFF`. -/
def WAITTIMEOUT : Nat := 0xFFFFFFFFFFFFFFFF

/-- Subtraction of two `u64` values: `a - b` reduced modulo `2^64`. -/
def u64_sub (a b : Nat) : Nat := (a + (2 ^ 64 - b % 2 ^ 64)) % 2 ^ 64

/-! ## The hardware seen by the driver -/

/-- Readings delivered by the platform, in the order the driver asks for them:
`levels` are the results of `gpio_get_value(gpio)`, `clocks` the results of
`ktime_get_real_ns()`. -/
structure World where
  levels : List Int
  clocks : List Nat
deriving DecidableEq, Repr

/-- What the driver does to the outside world, in program order. -/
inductive Action where
  | gpio_direction_input : Action
  | gpio_direction_output : Int → Action
  | mdelay : Nat → Action
  | udelay : Nat → Action
  | msleep : Nat → Action
deriving DecidableEq, Repr

/-- The `ret` struct: `char msg[100]; s32 temp; s32 humidity;`. -/
structure ret where
  msg : String
  temp : Int
  humidity : Int
deriving DecidableEq, Repr

/-- Globals of the module (`last_time`, `returnValue`), the interrupt-enable
flag of the executing CPU, the remaining hardware readings and the actions
performed so far. -/
structure State where
  last_time : Int
  returnValue : ret
  irqEnabled : Bool
  world : World
  actions : List Action
deriving DecidableEq, Repr

/-! ## Pulse timing sampler (`expectPulse`, lines 64-77) -/

/-- The `while (gpio_get_value(gpio) == state)` loop of `expectPulse`.
`nsTime` is the current value of the local variable; each iteration reads one
level and, when the level still equals `state`, one clock value. -/
def pollLoop (state : Int) (start : Nat) : Nat → List Int → List Nat → Option (Nat × World)
  | _, [], _ => none
  | nsTime, l :: ls, cs =>
    if l = state then
      match cs with
      | [] => none
      | c :: cs1 =>
        if u64_sub c start > 1000000 then some (WAITTIMEOUT, ⟨ls, cs1⟩)
        else pollLoop state start (u64_sub c start) ls cs1
    else some (nsTime, ⟨ls, cs⟩)

/-- `u64 expectPulse(int state)`: `nsTime = 0`, `start = ktime_get_real_ns()`,
then the polling loop.  Returns the result and the readings left over. -/
def expectPulse (state : Int) (w : World) : Option (Nat × World) :=
  match w.clocks with
  | [] => none
  | start :: cs => pollLoop state start 0 w.levels cs

/-! ## Frame decoder (`run`, lines 86-183) -/

/-- Body of the capture loop (lines 139-140) for loop index `i`:
`nstimes[i] = expectPulse(LOW); nstimes[i + 1] = expectPulse(HIGH);`. -/
def captureBody (i : Nat) (nstimes : Nat → Nat) (w : World) : Option ((Nat → Nat) × World) :=
  match expectPulse LOW w with
  | none => none
  | some (lo, w1) =>
    match expectPulse HIGH w1 with
    | none => none
    | some (hi, w2) => some (Function.update (Function.update nstimes i lo) (i + 1) hi, w2)

/-- The array `nstimes` and the world after the first `n` iterations of
`for (i = 0; i < 80; i += 2)`; iteration number `n` runs with `i = 2 * n`, and
the loop makes 40 iterations. -/
def captureLoop (nstimes0 : Nat → Nat) (w0 : World) : Nat → Option ((Nat → Nat) × World)
  | 0 => some (nstimes0, w0)
  | n + 1 =>
    match captureLoop nstimes0 w0 n with
    | none => none
    | some (nstimes, w) => captureBody (2 * n) nstimes w

/-- Body of the interpretation loop (lines 148-159) for loop index `i`.
`none` is the early `return` of line 152; `data` holds `u8` values, so the
shift is reduced modulo 256. -/
def interpretBody (nstimes : Nat → Nat) (i : Nat) (data : Nat → Nat) : Option (Nat → Nat) :=
  let lowCycles := nstimes (2 * i)
  let highCycles := nstimes (2 * i + 1)
  if lowCycles = WAITTIMEOUT ∨ highCycles = WAITTIMEOUT then none
  else
    let data1 := Function.update data (i / 8) ((data (i / 8) <<< 1) % 256)
    if highCycles > lowCycles then
      some (Function.update data1 (i / 8) (data1 (i / 8) ||| 1))
    else some data1

/-- The array `data` after the first `n` iterations of
`for (i = 0; i < 40; ++i)`, or `none` when one of them took the early return. -/
def interpretLoop (nstimes : Nat → Nat) (data0 : Nat → Nat) : Nat → Option (Nat → Nat)
  | 0 => some data0
  | n + 1 =>
    match interpretLoop nstimes data0 n with
    | none => none
    | some data => interpretBody nstimes n data

/-- Checksum validation and extraction (lines 165-182) on the five bytes of
`data`, updating `returnValue`. -/
def decodeStep (data : Nat → Nat) (rv : ret) : ret :=
  if data 4 = ((data 0 + data 1 + data 2 + data 3) &&& 0xFF) then
    let temp : Int := (((((data 2 &&& 0x7F) % 2 ^ 16) <<< 8) ||| data 3 : Nat) : Int)
    let temp : Int := if data 2 &&& 0x80 ≠ 0 then -temp else temp
    let humidity : Int := ((((data 0 % 2 ^ 16) <<< 8) ||| data 1 : Nat) : Int)
    { msg := "ok", temp := temp, humidity := humidity }
  else { rv with msg := "error: checksum error" }

/-- Lines 145-182: interpretation loop followed by the decode step. -/
def inspectPulses (nstimes : Nat → Nat) (data0 : Nat → Nat) (rv : ret) : ret :=
  match interpretLoop nstimes data0 40 with
  | none => { rv with msg := "error: timeout waiting for a pulse" }
  | some data => decodeStep data rv

/-- `static void run(void)`.  `data0` and `nstimes0` are the contents of the
uninitialised stack arrays `data[5]` and `nstimes[80]` on entry. -/
def run (s : State) (data0 nstimes0 : Nat → Nat) : Option State :=
  let rv : ret := { s.returnValue with temp := 0, humidity := 0 }
  let acts := s.actions ++
    [Action.gpio_direction_input, Action.mdelay 1,
     Action.gpio_direction_output 0, Action.udelay 1100,
     Action.gpio_direction_input, Action.udelay 55]
  -- local_irq_disable();
  let s1 : State := { s with returnValue := rv, actions := acts, irqEnabled := false }
  match expectPulse LOW s1.world with
  | none => none
  | some (r1, w1) =>
    if r1 = WAITTIMEOUT then
      some { s1 with
        returnValue := { rv with msg := "error: timeout waiting for start signal low pulse" },
        world := w1 }
    else
      match expectPulse HIGH w1 with
      | none => none
      | some (r2, w2) =>
        if r2 = WAITTIMEOUT then
          some { s1 with
            returnValue := { rv with msg := "error: timeout waiting for start signal high pulse" },
            world := w2 }
        else
          match captureLoop nstimes0 w2 40 with
          | none => none
          | some (nstimes, w3) =>
            -- local_irq_enable();
            some { s1 with
              irqEnabled := true,
              world := w3,
              returnValue := inspectPulses nstimes data0 rv }

/-! ## Report formatter (`am2301_show`, lines 185-197) -/

/-- The conversion `%d` of `seq_printf`: a signed decimal numeral. -/
def fmt_d (n : Int) : String := toString n

/-- The line produced by
`seq_printf(m, "%d.%d RH, %d.%d C, %s\n", h/10, h%10, t/10, t%10, returnValue.msg)`;
`/` and `%` on `s32` truncate towards zero. -/
def formatLine (rv : ret) : String :=
  let t := rv.temp
  let h := rv.humidity
  fmt_d (Int.tdiv h 10) ++ "." ++ fmt_d (Int.tmod h 10) ++ " RH, " ++
    fmt_d (Int.tdiv t 10) ++ "." ++ fmt_d (Int.tmod t 10) ++ " C, " ++ rv.msg ++ "\n"

/-- `static int am2301_show(...)`: runs one decode attempt and writes the
report line.  Returns the text written and the state afterwards. -/
def am2301_show (s : State) (data0 nstimes0 : Nat → Nat) : Option (String × State) :=
  match run s data0 nstimes0 with
  | none => none
  | some s1 => some (formatLine s1.returnValue, s1)

/-! ## Measurement throttle (`am2301_open`, lines 199-209) -/

/-- Conversion of an unsigned value to a signed `long` of `bits` bits. -/
def toLong (bits : Nat) (x : Nat) : Int :=
  if x % 2 ^ bits < 2 ^ (bits - 1) then ((x % 2 ^ bits : Nat) : Int)
  else ((x % 2 ^ bits : Nat) : Int) - ((2 ^ bits : Nat) : Int)

/-- Conversion of a signed `long` to `unsigned long` of `bits` bits. -/
def toULong (bits : Nat) (x : Int) : Nat := (x % ((2 ^ bits : Nat) : Int)).toNat

/-- The local `time_since_last_read` of `am2301_open`:
`jiffies_to_msecs(jiffies - last_time)`, the difference taken in
`unsigned long`, the result an `unsigned int` stored into a `long`.
`bits` is the width of `long`; `jiffies_to_msecs` is the kernel helper. -/
def time_since_last_read (bits : Nat) (jiffies_to_msecs : Nat → Nat)
    (jiffies : Nat) (last_time : Int) : Int :=
  toLong bits
    (jiffies_to_msecs ((jiffies % 2 ^ bits + (2 ^ bits - toULong bits last_time)) % 2 ^ bits)
      % 2 ^ 32)

/-- `static int am2301_open(...)` up to the call of `single_open`, which
registers `am2301_show` for the read that follows.  `jiffies1` is the tick
counter read on line 201, `jiffies2` the one read on line 206. -/
def am2301_open (bits : Nat) (jiffies_to_msecs : Nat → Nat) (jiffies1 jiffies2 : Nat)
    (s : State) : State :=
  let t := time_since_last_read bits jiffies_to_msecs jiffies1 s.last_time
  let s1 : State :=
    if 0 ≤ t ∧ t < MEASUREMENT_PERIOD then
      { s with actions := s.actions ++ [Action.msleep ((MEASUREMENT_PERIOD - t) % 2 ^ 32).toNat] }
    else s
  { s1 with last_time := toLong bits jiffies2 }

/-- One `cat /proc/am2301`: `am2301_open`, then `am2301_show` on the state
that `am2301_open` left. -/
def read_sensor (bits : Nat) (jiffies_to_msecs : Nat → Nat) (jiffies1 jiffies2 : Nat)
    (s : State) (data0 nstimes0 : Nat → Nat) : Option (String × State) :=
  am2301_show (am2301_open bits jiffies_to_msecs jiffies1 jiffies2 s) data0 nstimes0

/-! ## The frame as the specification words it -/

/-- Bit `i` of the frame: 1 when the high pulse of pair `i` lasted longer than
its low pulse, 0 otherwise (a tie gives 0). -/
def bit (nstimes : Nat → Nat) (i : Nat) : Nat :=
  if nstimes (2 * i + 1) > nstimes (2 * i) then 1 else 0

/-- Byte `k` of the frame: bits `8k .. 8k+7`, most significant first. -/
def frameByte (nstimes : Nat → Nat) (k : Nat) : Nat :=
  ((List.range 8).map (fun j => bit nstimes (8 * k + j) * 2 ^ (7 - j))).sum

/-- The value of a byte that held `v` after `c` further bits of byte `k` were
shifted in (auxiliary, for the loop invariant). -/
def byteAfter (nstimes : Nat → Nat) (k : Nat) : Nat → Nat → Nat
  | 0, v => v
  | c + 1, v => 2 * (byteAfter nstimes k c v % 128) + bit nstimes (8 * k + c)

/-- The array `data` holding the bytes of a list, for concrete frames. -/
def frameOf (bytes : List Nat) : Nat → Nat := fun k => bytes.getD k 0

/-- Readings that make successive `expectPulse` calls (expecting `state`, then
the other level, and so on) measure the durations `ds`: each call reads the
clock at 0, sees the expected level, reads the clock at `d`, and, unless
`d` is beyond the bound, sees the line change. -/
def worldOf : List Nat → Int → World
  | [], _ => ⟨[], []⟩
  | d :: ds, state =>
    if d > 1000000 then
      ⟨state :: (worldOf ds (1 - state)).levels, 0 :: d :: (worldOf ds (1 - state)).clocks⟩
    else
      ⟨state :: (1 - state) :: (worldOf ds (1 - state)).levels,
       0 :: d :: (worldOf ds (1 - state)).clocks⟩

/-- Durations of a complete exchange for the given frame bytes: the two
handshake pulses of 80 us, then per bit a 50 us low pulse and a high pulse of
70 us for a 1 and 28 us for a 0. -/
def frameDurations (bytes : List Nat) : List Nat :=
  [80000, 80000] ++
    (List.range 40).flatMap
      (fun i => [50000, if (bytes.getD (i / 8) 0).testBit (7 - i % 8) then 70000 else 28000])

/-- The array `nstimes` captured for the given frame bytes: even positions
hold the 50 us low pulse, odd positions the high pulse of the bit. -/
def durationsArray (bytes : List Nat) : Nat → Nat :=
  fun q => if q % 2 = 0 then 50000
    else if (bytes.getD (q / 16) 0).testBit (7 - q / 2 % 8) then 70000 else 28000

/-- A module state that still holds the reading 65.2 RH, 25.0 C of an earlier
read, facing a sensor that produces the durations `ds`. -/
def stateFacing (ds : List Nat) : State :=
  { last_time := 0, returnValue := ⟨"ok", 250, 652⟩, irqEnabled := true,
    world := worldOf ds LOW, actions := [] }

/-- The kernel helper `jiffies_to_msecs` for a tick rate `HZ` that divides
1000: `(MSEC_PER_SEC / HZ) * j`, returned as an `unsigned int`. -/
def kernel_jiffies_to_msecs (HZ : Nat) (j : Nat) : Nat := ((1000 / HZ) * j) % 2 ^ 32

/-- Milliseconds between the measurement recorded at tick `last` and the
moment of tick `now`, as a plain integer: ticks are counted from boot without
wrapping, and one tick is `1000 / HZ` ms. -/
def elapsed_ms (HZ : Nat) (now last : Nat) : Int :=
  ((1000 / HZ : Nat) : Int) * ((now : Int) - (last : Int))

/-! ## Lemmas on the polling loop -/

theorem pollLoop_timeout_at (state : Int) (start : Nat) :
    ∀ (n : Nat) (ls : List Int) (cs : List Nat) (ns c : Nat),
      (∀ k, k ≤ n → ls[k]? = some state) → cs[n]? = some c →
      u64_sub c start > 1000000 →
      (∀ k, k < n → ∀ d, cs[k]? = some d → u64_sub d start ≤ 1000000) →
      pollLoop state start ns ls cs
        = some (WAITTIMEOUT, ⟨ls.drop (n + 1), cs.drop (n + 1)⟩) := by
  intro n
  induction n with
  | zero =>
    intro ls cs ns c hl hc hgt _
    have h0 := hl 0 (Nat.le_refl 0)
    cases ls with
    | nil => simp at h0
    | cons l ls1 =>
      cases cs with
      | nil => simp at hc
      | cons c0 cs1 =>
        simp at h0 hc
        subst h0; subst hc
        simp [pollLoop, hgt]
  | succ n ih =>
    intro ls cs ns c hl hc hgt hle
    have h0 := hl 0 (Nat.zero_le _)
    cases ls with
    | nil => simp at h0
    | cons l ls1 =>
      cases cs with
      | nil => simp at hc
      | cons c0 cs1 =>
        simp at h0 hc
        subst h0
        have hc0 : u64_sub c0 start ≤ 1000000 := hle 0 (Nat.succ_pos n) c0 (by simp)
        have hrec := ih ls1 cs1 (u64_sub c0 start) c
          (fun k hk => by simpa using hl (k + 1) (Nat.succ_le_succ hk)) hc hgt
          (fun k hk d hd => hle (k + 1) (Nat.succ_lt_succ hk) d (by simpa using hd))
        simp [pollLoop, Nat.not_lt.mpr hc0, hrec]

theorem pollLoop_timeout_exists (state : Int) (start : Nat) :
    ∀ (n : Nat) (ls : List Int) (cs : List Nat) (ns c : Nat),
      (∀ k, k ≤ n → ls[k]? = some state) → cs[n]? = some c →
      u64_sub c start > 1000000 →
      ∃ w1, pollLoop state start ns ls cs = some (WAITTIMEOUT, w1) := by
  intro n
  induction n with
  | zero =>
    intro ls cs ns c hl hc hgt
    exact ⟨_, pollLoop_timeout_at state start 0 ls cs ns c hl hc hgt
      (fun k hk => absurd hk (Nat.not_lt_zero k))⟩
  | succ n ih =>
    intro ls cs ns c hl hc hgt
    have h0 := hl 0 (Nat.zero_le _)
    cases ls with
    | nil => simp at h0
    | cons l ls1 =>
      cases cs with
      | nil => simp at hc
      | cons c0 cs1 =>
        simp at h0 hc
        subst h0
        by_cases hc0 : u64_sub c0 start > 1000000
        · exact ⟨⟨ls1, cs1⟩, by simp [pollLoop, hc0]⟩
        · obtain ⟨w1, hw1⟩ := ih ls1 cs1 (u64_sub c0 start) c
            (fun k hk => by simpa using hl (k + 1) (Nat.succ_le_succ hk)) hc hgt
          exact ⟨w1, by simp [pollLoop, hc0, hw1]⟩

theorem pollLoop_change_at (state : Int) (start : Nat) :
    ∀ (n : Nat) (ls : List Int) (cs : List Nat) (lv : Int) (v : Nat),
      (∀ k, k < n → ls[k]? = some state) → ls[n]? = some lv → lv ≠ state →
      n ≤ cs.length →
      (∀ k, k < n → ∀ d, cs[k]? = some d → u64_sub d start ≤ 1000000) →
      pollLoop state start v ls cs
        = some (if n = 0 then v else u64_sub (cs.getD (n - 1) 0) start,
                ⟨ls.drop (n + 1), cs.drop n⟩) := by
  intro n
  induction n with
  | zero =>
    intro ls cs lv v _ hn hne _ _
    cases ls with
    | nil => simp at hn
    | cons l ls1 =>
      simp at hn
      subst hn
      simp [pollLoop, hne]
  | succ n ih =>
    intro ls cs lv v hl hn hne hlen hle
    have h0 := hl 0 (Nat.succ_pos n)
    cases ls with
    | nil => simp at h0
    | cons l ls1 =>
      cases cs with
      | nil => simp at hlen
      | cons c0 cs1 =>
        simp at h0 hn hlen
        subst h0
        have hc0 : u64_sub c0 start ≤ 1000000 := hle 0 (Nat.succ_pos n) c0 (by simp)
        have hrec := ih ls1 cs1 lv (u64_sub c0 start)
          (fun k hk => by simpa using hl (k + 1) (Nat.succ_lt_succ hk)) hn hne hlen
          (fun k hk d hd => hle (k + 1) (Nat.succ_lt_succ hk) d (by simpa using hd))
        simp only [pollLoop, if_true, Nat.not_lt.mpr hc0, if_false, hrec]
        cases n with
        | zero => simp
        | succ m => simp

theorem pollLoop_bound (state : Int) (start : Nat) :
    ∀ (ls : List Int) (cs : List Nat) (v r : Nat) (w1 : World),
      v ≤ 1000000 → pollLoop state start v ls cs = some (r, w1) →
      r = WAITTIMEOUT ∨ r ≤ 1000000 := by
  intro ls
  induction ls with
  | nil => intro cs v r w1 _ h; simp [pollLoop] at h
  | cons l ls1 ih =>
    intro cs v r w1 hv h
    by_cases hl : l = state
    · cases cs with
      | nil => simp [pollLoop, hl] at h
      | cons c0 cs1 =>
        by_cases hc0 : u64_sub c0 start > 1000000
        · simp [pollLoop, hl, hc0] at h
          exact Or.inl h.1.symm
        · simp only [pollLoop, hl, if_true, hc0, if_false] at h
          exact ih cs1 _ r w1 (Nat.le_of_not_lt hc0) h
    · simp [pollLoop, hl] at h
      exact Or.inr (h.1 ▸ hv)

theorem pollLoop_timeout_inv (state : Int) (start : Nat) :
    ∀ (ls : List Int) (cs : List Nat) (v : Nat) (w1 : World),
      v ≤ 1000000 → pollLoop state start v ls cs = some (WAITTIMEOUT, w1) →
      ∃ (n : Nat) (c : Nat), (∀ k, k ≤ n → ls[k]? = some state) ∧ cs[n]? = some c ∧
        u64_sub c start > 1000000 := by
  intro ls
  induction ls with
  | nil => intro cs v w1 _ h; simp [pollLoop] at h
  | cons l ls1 ih =>
    intro cs v w1 hv h
    by_cases hl : l = state
    · cases cs with
      | nil => simp [pollLoop, hl] at h
      | cons c0 cs1 =>
        by_cases hc0 : u64_sub c0 start > 1000000
        · refine ⟨0, c0, ?_, by simp, hc0⟩
          intro k hk
          have : k = 0 := Nat.le_zero.mp hk
          subst this
          simp [hl]
        · simp only [pollLoop, hl, if_true, hc0, if_false] at h
          obtain ⟨n, c, h1, h2, h3⟩ := ih cs1 _ w1 (Nat.le_of_not_lt hc0) h
          refine ⟨n + 1, c, ?_, by simpa using h2, h3⟩
          intro k hk
          cases k with
          | zero => simp [hl]
          | succ j => simpa using h1 j (Nat.le_of_succ_le_succ hk)
    · simp [pollLoop, hl] at h
      have : v = WAITTIMEOUT := h.1
      rw [this] at hv
      exact absurd hv (by decide)

/-! ## Claims on the pulse sampler -/

/-- Claim C8: for every sequence of levels `ls` and clock values `start :: cs`
read by `expectPulse state`, with elapsed time `u64_sub c start` (the
difference modulo `2^64`): (1) the result is `WAITTIMEOUT` exactly when some
elapsed value exceeds 1,000,000 while every level read up to then equals
`state`; (2) polling stops at the first such reading, the later readings are
left unread; (3) when the level changes first, the result is the last elapsed
value computed before the change, and 0 when the first level read already
differs; (4) every result is `WAITTIMEOUT` or at most 1,000,000, and the two
cases exclude each other. -/
theorem expectPulse_spec (state : Int) (start : Nat) (ls : List Int) (cs : List Nat) :
    ((∃ w1, expectPulse state ⟨ls, start :: cs⟩ = some (WAITTIMEOUT, w1)) ↔
      ∃ (n : Nat) (c : Nat), (∀ k, k ≤ n → ls[k]? = some state) ∧ cs[n]? = some c ∧
        u64_sub c start > 1000000) ∧
    (∀ (n : Nat) (c : Nat), (∀ k, k ≤ n → ls[k]? = some state) → cs[n]? = some c →
      u64_sub c start > 1000000 →
      (∀ k, k < n → ∀ d, cs[k]? = some d → u64_sub d start ≤ 1000000) →
      expectPulse state ⟨ls, start :: cs⟩
        = some (WAITTIMEOUT, ⟨ls.drop (n + 1), cs.drop (n + 1)⟩)) ∧
    (∀ (n : Nat) (lv : Int), (∀ k, k < n → ls[k]? = some state) → ls[n]? = some lv →
      lv ≠ state → n ≤ cs.length →
      (∀ k, k < n → ∀ d, cs[k]? = some d → u64_sub d start ≤ 1000000) →
      expectPulse state ⟨ls, start :: cs⟩
        = some (if n = 0 then 0 else u64_sub (cs.getD (n - 1) 0) start,
                ⟨ls.drop (n + 1), cs.drop n⟩)) ∧
    (∀ (r : Nat) (w1 : World), expectPulse state ⟨ls, start :: cs⟩ = some (r, w1) →
      (r = WAITTIMEOUT ∨ r ≤ 1000000) ∧ ¬ (r = WAITTIMEOUT ∧ r ≤ 1000000)) := by
  refine ⟨⟨?_, ?_⟩, ?_, ?_, ?_⟩
  · rintro ⟨w1, h⟩
    exact pollLoop_timeout_inv state start ls cs 0 w1 (by decide) h
  · rintro ⟨n, c, h1, h2, h3⟩
    exact pollLoop_timeout_exists state start n ls cs 0 c h1 h2 h3
  · intro n c h1 h2 h3 h4
    exact pollLoop_timeout_at state start n ls cs 0 c h1 h2 h3 h4
  · intro n lv h1 h2 h3 h4 h5
    exact pollLoop_change_at state start n ls cs lv 0 h1 h2 h3 h4 h5
  · intro r w1 h
    refine ⟨pollLoop_bound state start ls cs 0 r w1 (by decide) h, ?_⟩
    rintro ⟨h1, h2⟩
    rw [h1] at h2
    exact absurd h2 (by decide)

/-- Witness for C8: a LOW pulse sampled at 50 ns and 80 ns after the start and
then seen HIGH gives 80 and leaves the later readings; a pulse still LOW at
1,000,001 ns gives `WAITTIMEOUT` at that reading. -/
theorem expectPulse_spec_witness :
    expectPulse LOW ⟨[0, 0, 1, 1], [100, 150, 180, 999]⟩ = some (80, ⟨[1], [999]⟩) ∧
    expectPulse LOW ⟨[0, 0, 0], [100, 500, 1000101, 7]⟩ = some (WAITTIMEOUT, ⟨[0], [7]⟩) :=
  ⟨(expectPulse_spec LOW 100 [0, 0, 1, 1] [150, 180, 999]).2.2.1 2 1
      (by decide) (by decide) (by decide) (by decide)
      (by intro k hk d hd
          interval_cases k
          all_goals (simp at hd; subst hd; decide)),
   (expectPulse_spec LOW 100 [0, 0, 0] [500, 1000101, 7]).2.1 1 1000101
      (by decide) (by decide) (by decide)
      (by intro k hk d hd
          interval_cases k
          all_goals (simp at hd; subst hd; decide))⟩

/-! ## Lemmas on the interpretation loop -/

theorem shl_one_mod (v : Nat) : (v <<< 1) % 256 = 2 * (v % 128) := by
  rw [Nat.shiftLeft_eq]
  omega

set_option maxRecDepth 8000 in
theorem lor_one_double (y : Nat) (h : y < 128) : (2 * y) ||| 1 = 2 * y + 1 := by
  have key : ∀ z : Fin 128, (2 * z.val) ||| 1 = 2 * z.val + 1 := by decide
  exact key ⟨y, h⟩

theorem interpretBody_ok (nstimes data : Nat → Nat) (i : Nat)
    (hlo : nstimes (2 * i) ≠ WAITTIMEOUT) (hhi : nstimes (2 * i + 1) ≠ WAITTIMEOUT) :
    interpretBody nstimes i data
      = some (Function.update data (i / 8) (2 * (data (i / 8) % 128) + bit nstimes i)) := by
  have hlt : data (i / 8) % 128 < 128 := Nat.mod_lt _ (by decide)
  unfold interpretBody bit
  by_cases hc : nstimes (2 * i + 1) > nstimes (2 * i)
  · simp [hlo, hhi, hc, shl_one_mod, lor_one_double _ hlt]
  · simp [hlo, hhi, hc, shl_one_mod]

theorem byteAfter_eight (nstimes : Nat → Nat) (k v : Nat) :
    byteAfter nstimes k 8 v = frameByte nstimes k := by
  have hb : ∀ i, bit nstimes i ≤ 1 := by
    intro i
    unfold bit
    split <;> omega
  have h0 := hb (8 * k)
  have h1 := hb (8 * k + 1)
  have h2 := hb (8 * k + 2)
  have h3 := hb (8 * k + 3)
  have h4 := hb (8 * k + 4)
  have h5 := hb (8 * k + 5)
  have h6 := hb (8 * k + 6)
  have h7 := hb (8 * k + 7)
  simp only [byteAfter, frameByte, List.range_succ, List.range_zero, List.map_append,
    List.map_cons, List.map_nil, List.sum_append, List.sum_cons, List.sum_nil, List.nil_append]
  norm_num
  omega

theorem interpretLoop_ok (nstimes data0 : Nat → Nat) :
    ∀ n : Nat, (∀ p, p < 2 * n → nstimes p ≠ WAITTIMEOUT) →
      ∃ d, interpretLoop nstimes data0 n = some d ∧
        ∀ k, d k = byteAfter nstimes k (min 8 (n - 8 * k)) (data0 k) := by
  intro n
  induction n with
  | zero =>
    intro _
    exact ⟨data0, rfl, fun k => by simp [byteAfter]⟩
  | succ n ih =>
    intro h
    obtain ⟨d, hd, hk⟩ := ih (fun p hp => h p (by omega))
    refine ⟨Function.update d (n / 8) (2 * (d (n / 8) % 128) + bit nstimes n), ?_, ?_⟩
    · simp only [interpretLoop, hd]
      exact interpretBody_ok nstimes d n (h _ (by omega)) (h _ (by omega))
    · intro k
      by_cases hkn : k = n / 8
      · have e1 : min 8 (n + 1 - 8 * k) = (n % 8) + 1 := by omega
        have e2 : min 8 (n - 8 * k) = n % 8 := by omega
        have e3 : 8 * k + n % 8 = n := by omega
        rw [e1, ← hkn, Function.update_same, hk k, e2]
        simp only [byteAfter, e3]
      · have e1 : min 8 (n + 1 - 8 * k) = min 8 (n - 8 * k) := by omega
        rw [e1, Function.update_noteq hkn, hk k]

theorem interpretLoop_timeout (nstimes data0 : Nat → Nat) :
    ∀ n p : Nat, p < 2 * n → nstimes p = WAITTIMEOUT →
      interpretLoop nstimes data0 n = none := by
  intro n
  induction n with
  | zero => intro p hp; omega
  | succ n ih =>
    intro p hp hto
    by_cases hlt : p < 2 * n
    · simp [interpretLoop, ih p hlt hto]
    · have hcase : p = 2 * n ∨ p = 2 * n + 1 := by omega
      simp only [interpretLoop]
      cases hloop : interpretLoop nstimes data0 n with
      | none => rfl
      | some d =>
        rcases hcase with rfl | rfl
        · simp [interpretBody, hto]
        · simp [interpretBody, hto]

/-! ## Lemmas on the decode step -/

theorem and_255 (x : Nat) : x &&& 0xFF = x % 256 :=
  Nat.and_pow_two_sub_one_eq_mod x 8

theorem and_127 (x : Nat) : x &&& 0x7F = x % 128 :=
  Nat.and_pow_two_sub_one_eq_mod x 7

theorem shl8_lor (a b : Nat) (hb : b < 256) : (a <<< 8) ||| b = 256 * a + b := by
  rw [Nat.shiftLeft_eq, Nat.mul_comm]
  exact (Nat.mul_add_lt_is_or (i := 8) hb a).symm

set_option maxRecDepth 8000 in
theorem and_128_ne_zero (x : Nat) (hx : x < 256) : x &&& 0x80 ≠ 0 ↔ 128 ≤ x := by
  have key : ∀ z : Fin 256, z.val &&& 0x80 ≠ 0 ↔ 128 ≤ z.val := by decide
  exact key ⟨x, hx⟩

set_option maxRecDepth 8000 in
theorem testBit_7_iff (x : Nat) (hx : x < 256) : x.testBit 7 = true ↔ x &&& 0x80 ≠ 0 := by
  have key : ∀ z : Fin 256, (z.val.testBit 7 = true ↔ z.val &&& 0x80 ≠ 0) := by decide
  exact key ⟨x, hx⟩

theorem decodeStep_mismatch (data : Nat → Nat) (rv : ret)
    (h : data 4 ≠ (data 0 + data 1 + data 2 + data 3) % 256) :
    decodeStep data rv = { rv with msg := "error: checksum error" } := by
  unfold decodeStep
  rw [and_255, if_neg h]

theorem decodeStep_match (data : Nat → Nat) (rv : ret)
    (h : data 4 = (data 0 + data 1 + data 2 + data 3) % 256) :
    decodeStep data rv =
      { msg := "ok",
        temp := if data 2 &&& 0x80 ≠ 0
          then -(((((data 2 &&& 0x7F) % 2 ^ 16) <<< 8) ||| data 3 : Nat) : Int)
          else (((((data 2 &&& 0x7F) % 2 ^ 16) <<< 8) ||| data 3 : Nat) : Int),
        humidity := ((((data 0 % 2 ^ 16) <<< 8) ||| data 1 : Nat) : Int) } := by
  unfold decodeStep
  rw [and_255, if_pos h]

/-! ## Claims on frame assembly and the decode step -/

/-- Claim C7: for every array of 80 durations none of which is `WAITTIMEOUT`
and any initial contents `data0` of the buffer `data`, the interpretation loop
of `run` completes its 40 iterations and leaves in each byte `k` of 0..4 the
value `frameByte nstimes k`, the sum over `j` in 0..7 of
`bit (8k+j) * 2^(7-j)`, where a bit is 1 exactly when the high duration is
strictly longer than the low one. -/
theorem interpretLoop_frame (nstimes data0 : Nat → Nat)
    (h : ∀ p, p < 80 → nstimes p ≠ WAITTIMEOUT) :
    ∃ data, interpretLoop nstimes data0 40 = some data ∧
      ∀ k, k < 5 → data k = frameByte nstimes k ∧
        frameByte nstimes k
          = bit nstimes (8 * k) * 128 + bit nstimes (8 * k + 1) * 64
            + bit nstimes (8 * k + 2) * 32 + bit nstimes (8 * k + 3) * 16
            + bit nstimes (8 * k + 4) * 8 + bit nstimes (8 * k + 5) * 4
            + bit nstimes (8 * k + 6) * 2 + bit nstimes (8 * k + 7) := by
  obtain ⟨d, hd, hk⟩ := interpretLoop_ok nstimes data0 40 (fun p hp => h p (by omega))
  refine ⟨d, hd, ?_⟩
  intro k hk5
  have e : min 8 (40 - 8 * k) = 8 := by omega
  refine ⟨by rw [hk k, e, byteAfter_eight], ?_⟩
  simp only [frameByte, List.range_succ, List.range_zero, List.map_append,
    List.map_cons, List.map_nil, List.sum_append, List.sum_cons, List.sum_nil, List.nil_append]
  norm_num

/-- Witness for C7: durations whose frame is `02 8C 00 FA 88`, read into a
buffer that held `AA` in every byte. -/
theorem interpretLoop_frame_witness :
    ∃ data, interpretLoop (durationsArray [0x02, 0x8C, 0x00, 0xFA, 0x88]) (fun _ => 0xAA) 40
        = some data ∧
      ∀ k, k < 5 → data k = frameByte (durationsArray [0x02, 0x8C, 0x00, 0xFA, 0x88]) k ∧
        frameByte (durationsArray [0x02, 0x8C, 0x00, 0xFA, 0x88]) k
          = [0x02, 0x8C, 0x00, 0xFA, 0x88].getD k 0 := by
  set_option maxRecDepth 100000 in
  obtain ⟨data, hd, hk⟩ := interpretLoop_frame (durationsArray [0x02, 0x8C, 0x00, 0xFA, 0x88])
    (fun _ => 0xAA) (by decide)
  refine ⟨data, hd, fun k hk5 => ⟨(hk k hk5).1, ?_⟩⟩
  revert k
  set_option maxRecDepth 100000 in
  decide

/-- Claim C1: for every 5-byte frame with
`byte[4] = (byte[0]+byte[1]+byte[2]+byte[3]) mod 256` the decode step of `run`
sets status "ok", humidity `byte[0]<<8 | byte[1]` (that is
`256*byte[0] + byte[1]`) and temperature `(byte[2] & 0x7F)<<8 | byte[3]` (that
is `256*(byte[2] mod 128) + byte[3]`), negated exactly when bit 7 of `byte[2]`
is set (`byte[2] >= 128`); with `byte[2] = 0x80` and `byte[3] = 0` the
temperature is 0. -/
theorem decodeStep_valid (data : Nat → Nat) (rv : ret)
    (hb : ∀ k, k < 5 → data k < 256)
    (hsum : data 4 = (data 0 + data 1 + data 2 + data 3) % 256) :
    decodeStep data rv =
      { msg := "ok",
        humidity := (((data 0 <<< 8) ||| data 1 : Nat) : Int),
        temp := if (data 2).testBit 7
          then -((((data 2 &&& 0x7F) <<< 8) ||| data 3 : Nat) : Int)
          else ((((data 2 &&& 0x7F) <<< 8) ||| data 3 : Nat) : Int) } ∧
    (data 0 <<< 8) ||| data 1 = 256 * data 0 + data 1 ∧
    ((data 2 &&& 0x7F) <<< 8) ||| data 3 = 256 * (data 2 % 128) + data 3 ∧
    ((data 2).testBit 7 ↔ 128 ≤ data 2) ∧
    (data 2 = 0x80 → data 3 = 0 → (decodeStep data rv).temp = 0) := by
  have h0 := hb 0 (by decide)
  have h1 := hb 1 (by decide)
  have h2 := hb 2 (by decide)
  have h3 := hb 3 (by decide)
  have hbit : (data 2).testBit 7 = true ↔ data 2 &&& 0x80 ≠ 0 := testBit_7_iff _ h2
  have e0 : data 0 % 2 ^ 16 = data 0 := Nat.mod_eq_of_lt (by omega)
  have e2 : (data 2 &&& 0x7F) % 2 ^ 16 = data 2 &&& 0x7F := by
    rw [and_127]
    exact Nat.mod_eq_of_lt (by omega)
  have hstep := decodeStep_match data rv hsum
  rw [e0, e2] at hstep
  refine ⟨?_, shl8_lor _ _ h1, ?_, ?_, ?_⟩
  · rw [hstep]
    by_cases hs : data 2 &&& 0x80 ≠ 0
    · rw [if_pos hs, if_pos (hbit.mpr hs)]
    · rw [if_neg hs, if_neg (fun hc => hs (hbit.mp hc))]
  · rw [shl8_lor _ _ h3, and_127]
  · rw [hbit]
    exact and_128_ne_zero _ h2
  · intro ha hz
    rw [hstep]
    show (if data 2 &&& 0x80 ≠ 0
          then -(((((data 2 &&& 0x7F)) <<< 8) ||| data 3 : Nat) : Int)
          else (((((data 2 &&& 0x7F)) <<< 8) ||| data 3 : Nat) : Int)) = 0
    rw [ha, hz]
    decide

/-- Witness for C1: the frame `02 8C 00 FA 88` decodes to humidity 652 and
temperature 250; the frame `00 00 80 0A 8A` to humidity 0 and temperature
-10. -/
theorem decodeStep_valid_witness :
    decodeStep (frameOf [0x02, 0x8C, 0x00, 0xFA, 0x88]) ⟨"", 0, 0⟩ = ⟨"ok", 250, 652⟩ ∧
    decodeStep (frameOf [0x00, 0x00, 0x80, 0x0A, 0x8A]) ⟨"", 0, 0⟩ = ⟨"ok", -10, 0⟩ :=
  ⟨(decodeStep_valid (frameOf [0x02, 0x8C, 0x00, 0xFA, 0x88]) ⟨"", 0, 0⟩
      (by decide) (by decide)).1,
   (decodeStep_valid (frameOf [0x00, 0x00, 0x80, 0x0A, 0x8A]) ⟨"", 0, 0⟩
      (by decide) (by decide)).1⟩

/-- Counterexample for C1 as stated: the frame `02 8C 00 FA 86` named by the
claim is not checksum-valid (the four bytes sum to `0x188`, so the checksum
byte would be `0x88`); the decode step reports a checksum error and neither
humidity 652 nor temperature 250. -/
theorem decodeStep_example_frame_rejected :
    frameOf [0x02, 0x8C, 0x00, 0xFA, 0x86] 4 ≠
      (frameOf [0x02, 0x8C, 0x00, 0xFA, 0x86] 0 + frameOf [0x02, 0x8C, 0x00, 0xFA, 0x86] 1
        + frameOf [0x02, 0x8C, 0x00, 0xFA, 0x86] 2
        + frameOf [0x02, 0x8C, 0x00, 0xFA, 0x86] 3) % 256 ∧
    decodeStep (frameOf [0x02, 0x8C, 0x00, 0xFA, 0x86]) ⟨"", 0, 0⟩
      = ⟨"error: checksum error", 0, 0⟩ ∧
    decodeStep (frameOf [0x02, 0x8C, 0x00, 0xFA, 0x86]) ⟨"", 0, 0⟩ ≠ ⟨"ok", 250, 652⟩ := by
  decide

/-- Claim C9: in a checksum-valid frame, changing exactly one of `byte[0]`,
`byte[1]`, `byte[2]`, `byte[3]` (index `j`) to a different 8-bit value `v`
breaks the equality `byte[4] = (byte[0]+byte[1]+byte[2]+byte[3]) mod 256`,
and the decode step, entered as in `run` with humidity and temperature
zeroed, yields "error: checksum error" with humidity 0 and temperature 0. -/
theorem decodeStep_single_byte_mutation (data : Nat → Nat) (rv : ret)
    (hb : ∀ k, k < 5 → data k < 256)
    (hsum : data 4 = (data 0 + data 1 + data 2 + data 3) % 256)
    (j v : Nat) (hj : j < 4) (hv : v < 256) (hne : v ≠ data j) :
    Function.update data j v 4 ≠
      (Function.update data j v 0 + Function.update data j v 1
        + Function.update data j v 2 + Function.update data j v 3) % 256 ∧
    Function.update data j v 4 = data 4 ∧
    decodeStep (Function.update data j v) { rv with temp := 0, humidity := 0 }
      = ⟨"error: checksum error", 0, 0⟩ := by
  have h0 := hb 0 (by decide)
  have h1 := hb 1 (by decide)
  have h2 := hb 2 (by decide)
  have h3 := hb 3 (by decide)
  have hbad : Function.update data j v 4 ≠
      (Function.update data j v 0 + Function.update data j v 1
        + Function.update data j v 2 + Function.update data j v 3) % 256 := by
    have hcases : j = 0 ∨ j = 1 ∨ j = 2 ∨ j = 3 := by omega
    rcases hcases with rfl | rfl | rfl | rfl <;> simp [Function.update] <;> omega
  refine ⟨hbad, ?_, ?_⟩
  · have h4 : (4 : Nat) ≠ j := by omega
    exact Function.update_noteq h4 v data
  · rw [decodeStep_mismatch _ _ hbad]

/-- Witness for C9: in the valid frame `00 00 80 0A 8A`, changing `byte[3]`
from `0A` to `0B` gives a checksum error and a zeroed reading. -/
theorem decodeStep_single_byte_mutation_witness :
    decodeStep (Function.update (frameOf [0x00, 0x00, 0x80, 0x0A, 0x8A]) 3 0x0B)
      { (⟨"ok", 250, 652⟩ : ret) with temp := 0, humidity := 0 }
      = ⟨"error: checksum error", 0, 0⟩ :=
  (decodeStep_single_byte_mutation (frameOf [0x00, 0x00, 0x80, 0x0A, 0x8A]) ⟨"ok", 250, 652⟩
    (by decide) (by decide) 3 0x0B (by decide) (by decide) (by decide)).2.2

/-! ## Lemmas on `run` -/

theorem pollLoop_clocks (state : Int) (start : Nat) :
    ∀ (ls : List Int) (cs : List Nat) (v r : Nat) (w1 : World),
      pollLoop state start v ls cs = some (r, w1) → w1.clocks.length ≤ cs.length := by
  intro ls
  induction ls with
  | nil => intro cs v r w1 h; simp [pollLoop] at h
  | cons l ls1 ih =>
    intro cs v r w1 h
    by_cases hl : l = state
    · cases cs with
      | nil => simp [pollLoop, hl] at h
      | cons c0 cs1 =>
        by_cases hc0 : u64_sub c0 start > 1000000
        · simp [pollLoop, hl, hc0] at h
          rw [← h.2]
          simp
        · simp only [pollLoop, hl, if_true, hc0, if_false] at h
          have := ih cs1 _ r w1 h
          simp only [List.length_cons]
          omega
    · simp [pollLoop, hl] at h
      rw [← h.2]

theorem expectPulse_consumes (state : Int) (w w1 : World) (r : Nat)
    (h : expectPulse state w = some (r, w1)) : w1.clocks.length < w.clocks.length := by
  unfold expectPulse at h
  cases hc : w.clocks with
  | nil => simp [hc] at h
  | cons start cs =>
    simp only [hc] at h
    have := pollLoop_clocks state start w.levels cs 0 r w1 h
    simp only [List.length_cons]
    omega

theorem run_low_timeout (s : State) (data0 nstimes0 : Nat → Nat) (w1 : World)
    (h1 : expectPulse LOW s.world = some (WAITTIMEOUT, w1)) :
    run s data0 nstimes0 = some
      { last_time := s.last_time,
        returnValue := ⟨"error: timeout waiting for start signal low pulse", 0, 0⟩,
        irqEnabled := false,
        world := w1,
        actions := s.actions ++
          [Action.gpio_direction_input, Action.mdelay 1,
           Action.gpio_direction_output 0, Action.udelay 1100,
           Action.gpio_direction_input, Action.udelay 55] } := by
  simp [run, h1]

theorem run_high_timeout (s : State) (data0 nstimes0 : Nat → Nat) (r1 : Nat) (w1 w2 : World)
    (h1 : expectPulse LOW s.world = some (r1, w1)) (hr1 : r1 ≠ WAITTIMEOUT)
    (h2 : expectPulse HIGH w1 = some (WAITTIMEOUT, w2)) :
    run s data0 nstimes0 = some
      { last_time := s.last_time,
        returnValue := ⟨"error: timeout waiting for start signal high pulse", 0, 0⟩,
        irqEnabled := false,
        world := w2,
        actions := s.actions ++
          [Action.gpio_direction_input, Action.mdelay 1,
           Action.gpio_direction_output 0, Action.udelay 1100,
           Action.gpio_direction_input, Action.udelay 55] } := by
  simp [run, h1, hr1, h2]

theorem run_captured (s : State) (data0 nstimes0 : Nat → Nat) (r1 r2 : Nat) (w1 w2 : World)
    (cap : (Nat → Nat) × World)
    (h1 : expectPulse LOW s.world = some (r1, w1)) (hr1 : r1 ≠ WAITTIMEOUT)
    (h2 : expectPulse HIGH w1 = some (r2, w2)) (hr2 : r2 ≠ WAITTIMEOUT)
    (h3 : captureLoop nstimes0 w2 40 = some cap) :
    run s data0 nstimes0 = some
      { last_time := s.last_time,
        returnValue := inspectPulses cap.1 data0 ⟨s.returnValue.msg, 0, 0⟩,
        irqEnabled := true,
        world := cap.2,
        actions := s.actions ++
          [Action.gpio_direction_input, Action.mdelay 1,
           Action.gpio_direction_output 0, Action.udelay 1100,
           Action.gpio_direction_input, Action.udelay 55] } := by
  obtain ⟨ns, w3⟩ := cap
  simp [run, h1, hr1, h2, hr2, h3]

theorem inspectPulses_timeout (nstimes data0 : Nat → Nat) (rv : ret) (p : Nat)
    (hp : p < 80) (hto : nstimes p = WAITTIMEOUT) :
    inspectPulses nstimes data0 rv = { rv with msg := "error: timeout waiting for a pulse" } := by
  unfold inspectPulses
  rw [interpretLoop_timeout nstimes data0 40 p (by omega) hto]

theorem inspectPulses_mismatch (nstimes data0 : Nat → Nat) (rv : ret)
    (hnt : ∀ p, p < 80 → nstimes p ≠ WAITTIMEOUT)
    (hbad : frameByte nstimes 4 ≠
      (frameByte nstimes 0 + frameByte nstimes 1 + frameByte nstimes 2
        + frameByte nstimes 3) % 256) :
    inspectPulses nstimes data0 rv = { rv with msg := "error: checksum error" } := by
  obtain ⟨d, hd, hk⟩ := interpretLoop_ok nstimes data0 40 (fun p hp => hnt p (by omega))
  have hf : ∀ k, k < 5 → d k = frameByte nstimes k := by
    intro k hk5
    have e : min 8 (40 - 8 * k) = 8 := by omega
    rw [hk k, e, byteAfter_eight]
  unfold inspectPulses
  rw [hd]
  apply decodeStep_mismatch
  rw [hf 0 (by decide), hf 1 (by decide), hf 2 (by decide), hf 3 (by decide),
    hf 4 (by decide)]
  exact hbad

/-! ## Claims on `run` -/

/-- Claim C2: when the handshake succeeds, none of the 80 captured durations is
`WAITTIMEOUT`, and the frame assembled from them has `byte[4]` different from
`(byte[0]+byte[1]+byte[2]+byte[3]) mod 256`, `run` returns with status
"error: checksum error", humidity 0 and temperature 0, whatever reading
`returnValue` held before. -/
theorem run_checksum_error (s : State) (data0 nstimes0 : Nat → Nat) (r1 r2 : Nat)
    (w1 w2 : World) (cap : (Nat → Nat) × World)
    (h1 : expectPulse LOW s.world = some (r1, w1)) (hr1 : r1 ≠ WAITTIMEOUT)
    (h2 : expectPulse HIGH w1 = some (r2, w2)) (hr2 : r2 ≠ WAITTIMEOUT)
    (h3 : captureLoop nstimes0 w2 40 = some cap)
    (hnt : ∀ p, p < 80 → cap.1 p ≠ WAITTIMEOUT)
    (hbad : frameByte cap.1 4 ≠
      (frameByte cap.1 0 + frameByte cap.1 1 + frameByte cap.1 2 + frameByte cap.1 3) % 256) :
    ∃ s1, run s data0 nstimes0 = some s1 ∧
      s1.returnValue = ⟨"error: checksum error", 0, 0⟩ := by
  refine ⟨_, run_captured s data0 nstimes0 r1 r2 w1 w2 cap h1 hr1 h2 hr2 h3, ?_⟩
  show inspectPulses cap.1 data0 ⟨s.returnValue.msg, 0, 0⟩ = _
  rw [inspectPulses_mismatch cap.1 data0 _ hnt hbad]

/-- Witness for C2: a sensor sending `00 00 80 0A 8B`, whose last byte is one
more than the sum of the first four, to a module that held an earlier reading. -/
theorem run_checksum_error_witness :
    ∃ s1, run (stateFacing (frameDurations [0x00, 0x00, 0x80, 0x0A, 0x8B]))
        (fun _ => 0xAA) (fun _ => 0) = some s1 ∧
      s1.returnValue = ⟨"error: checksum error", 0, 0⟩ := by
  set_option maxRecDepth 100000 in
  exact run_checksum_error (stateFacing (frameDurations [0x00, 0x00, 0x80, 0x0A, 0x8B]))
    (fun _ => 0xAA) (fun _ => 0) 80000 80000
    (worldOf ((frameDurations [0x00, 0x00, 0x80, 0x0A, 0x8B]).drop 1) HIGH)
    (worldOf ((frameDurations [0x00, 0x00, 0x80, 0x0A, 0x8B]).drop 2) LOW)
    ((captureLoop (fun _ => 0)
        (worldOf ((frameDurations [0x00, 0x00, 0x80, 0x0A, 0x8B]).drop 2) LOW) 40).getD
      (fun _ => 0, ⟨[], []⟩))
    (by decide) (by decide) (by decide) (by decide) (by rfl) (by decide) (by decide)

/-- Claim C3: when the handshake succeeds and the duration captured at some
position `p` of 0..79 is `WAITTIMEOUT`, `run` returns with status
"error: timeout waiting for a pulse", humidity 0 and temperature 0, whatever
the other 79 durations are and whatever reading `returnValue` held before. -/
theorem run_pulse_timeout (s : State) (data0 nstimes0 : Nat → Nat) (r1 r2 : Nat)
    (w1 w2 : World) (cap : (Nat → Nat) × World)
    (h1 : expectPulse LOW s.world = some (r1, w1)) (hr1 : r1 ≠ WAITTIMEOUT)
    (h2 : expectPulse HIGH w1 = some (r2, w2)) (hr2 : r2 ≠ WAITTIMEOUT)
    (h3 : captureLoop nstimes0 w2 40 = some cap)
    (p : Nat) (hp : p < 80) (hto : cap.1 p = WAITTIMEOUT) :
    ∃ s1, run s data0 nstimes0 = some s1 ∧
      s1.returnValue = ⟨"error: timeout waiting for a pulse", 0, 0⟩ := by
  refine ⟨_, run_captured s data0 nstimes0 r1 r2 w1 w2 cap h1 hr1 h2 hr2 h3, ?_⟩
  show inspectPulses cap.1 data0 ⟨s.returnValue.msg, 0, 0⟩ = _
  rw [inspectPulses_timeout cap.1 data0 _ p hp hto]

/-- Witness for C3: the checksum-valid frame `00 00 80 0A 8A` in which the
last high pulse (position 79) never ends. -/
theorem run_pulse_timeout_witness :
    ∃ s1, run (stateFacing ((frameDurations [0x00, 0x00, 0x80, 0x0A, 0x8A]).set 81 2000000))
        (fun _ => 0xAA) (fun _ => 0) = some s1 ∧
      s1.returnValue = ⟨"error: timeout waiting for a pulse", 0, 0⟩ := by
  set_option maxRecDepth 100000 in
  exact run_pulse_timeout (stateFacing ((frameDurations [0x00, 0x00, 0x80, 0x0A, 0x8A]).set 81 2000000))
    (fun _ => 0xAA) (fun _ => 0) 80000 80000
    (worldOf (((frameDurations [0x00, 0x00, 0x80, 0x0A, 0x8A]).set 81 2000000).drop 1) HIGH)
    (worldOf (((frameDurations [0x00, 0x00, 0x80, 0x0A, 0x8A]).set 81 2000000).drop 2) LOW)
    ((captureLoop (fun _ => 0)
        (worldOf (((frameDurations [0x00, 0x00, 0x80, 0x0A, 0x8A]).set 81 2000000).drop 2)
          LOW) 40).getD
      (fun _ => 0, ⟨[], []⟩))
    (by decide) (by decide) (by decide) (by decide) (by rfl) 79 (by decide) (by decide)

/-- Claim C6: if the first sampler call of `run` (expecting LOW) returns
`WAITTIMEOUT`, `run` returns with status
"error: timeout waiting for start signal low pulse"; otherwise, if the second
call (expecting HIGH) returns `WAITTIMEOUT`, with status
"error: timeout waiting for start signal high pulse".  In both cases humidity
and temperature are 0 and the readings left are exactly those the failing call
left: no further sampler call was made, since every sampler call that returns
consumes at least one clock reading. -/
theorem run_start_signal_timeout (s : State) (data0 nstimes0 : Nat → Nat) :
    (∀ w1, expectPulse LOW s.world = some (WAITTIMEOUT, w1) →
      ∃ s1, run s data0 nstimes0 = some s1 ∧
        s1.returnValue = ⟨"error: timeout waiting for start signal low pulse", 0, 0⟩ ∧
        s1.world = w1) ∧
    (∀ r1 w1 w2, expectPulse LOW s.world = some (r1, w1) → r1 ≠ WAITTIMEOUT →
      expectPulse HIGH w1 = some (WAITTIMEOUT, w2) →
      ∃ s1, run s data0 nstimes0 = some s1 ∧
        s1.returnValue = ⟨"error: timeout waiting for start signal high pulse", 0, 0⟩ ∧
        s1.world = w2) ∧
    (∀ state w r w1, expectPulse state w = some (r, w1) →
      w1.clocks.length < w.clocks.length) := by
  refine ⟨?_, ?_, ?_⟩
  · intro w1 h1
    exact ⟨_, run_low_timeout s data0 nstimes0 w1 h1, rfl, rfl⟩
  · intro r1 w1 w2 h1 hr1 h2
    exact ⟨_, run_high_timeout s data0 nstimes0 r1 w1 w2 h1 hr1 h2, rfl, rfl⟩
  · intro state w r w1 h
    exact expectPulse_consumes state w w1 r h

/-- Witness for C6: a line that stays low beyond 1 ms, and a line whose
acknowledgment is low for 80 us and then stays high beyond 1 ms; the readings
prepared for the bit pulses are left untouched. -/
theorem run_start_signal_timeout_witness :
    (∃ s1, run (stateFacing [2000000, 50000, 70000]) (fun _ => 0xAA) (fun _ => 0) = some s1 ∧
      s1.returnValue = ⟨"error: timeout waiting for start signal low pulse", 0, 0⟩ ∧
      s1.world = worldOf [50000, 70000] HIGH) ∧
    (∃ s1, run (stateFacing [80000, 2000000, 50000, 70000]) (fun _ => 0xAA) (fun _ => 0)
        = some s1 ∧
      s1.returnValue = ⟨"error: timeout waiting for start signal high pulse", 0, 0⟩ ∧
      s1.world = worldOf [50000, 70000] LOW) :=
  ⟨(run_start_signal_timeout (stateFacing [2000000, 50000, 70000])
      (fun _ => 0xAA) (fun _ => 0)).1 (worldOf [50000, 70000] HIGH) (by decide),
   (run_start_signal_timeout (stateFacing [80000, 2000000, 50000, 70000])
      (fun _ => 0xAA) (fun _ => 0)).2.1 80000 (worldOf [2000000, 50000, 70000] HIGH)
      (worldOf [50000, 70000] LOW) (by decide) (by decide) (by decide)⟩

/-- Claim C10, evaluated where the code departs from it: `run` entered with
interrupts enabled returns with interrupts still disabled when the start
signal times out (low or high phase), because both early returns of lines
122 and 127 leave before `local_irq_enable()`; on the checksum-valid frame
`00 00 80 0A 8A` it returns with interrupts enabled. -/
theorem run_start_timeout_irq_left_disabled :
    (stateFacing [2000000]).irqEnabled = true ∧
    (run (stateFacing [2000000]) (fun _ => 0xAA) (fun _ => 0)).map
        (fun s1 => (s1.returnValue.msg, s1.irqEnabled))
      = some ("error: timeout waiting for start signal low pulse", false) ∧
    (run (stateFacing [80000, 2000000]) (fun _ => 0xAA) (fun _ => 0)).map
        (fun s1 => (s1.returnValue.msg, s1.irqEnabled))
      = some ("error: timeout waiting for start signal high pulse", false) ∧
    (run (stateFacing (frameDurations [0x00, 0x00, 0x80, 0x0A, 0x8A]))
        (fun _ => 0xAA) (fun _ => 0)).map (fun s1 => (s1.returnValue.msg, s1.irqEnabled))
      = some ("ok", true) := by
  refine ⟨rfl, by decide, by decide, ?_⟩
  set_option maxRecDepth 100000 in decide

/-! ## Claim on the report formatter -/

/-- Claim C4, evaluated where the code departs from it: for the frame
`00 00 80 05 85` (temperature -5 tenths) `am2301_show` writes
`0.0 RH, 0.-5 C, ok`, and for `00 00 80 0F 8F` (-15 tenths)
`0.0 RH, -1.-5 C, ok`: the fractional field carries a minus sign of its own
and, for -5, the number has no leading minus sign.  A reading without a
negative temperature, 652 and 250 tenths, is written `65.2 RH, 25.0 C, ok`. -/
theorem am2301_show_negative_temperature :
    (am2301_show (stateFacing (frameDurations [0x00, 0x00, 0x80, 0x05, 0x85]))
        (fun _ => 0xAA) (fun _ => 0)).map Prod.fst = some "0.0 RH, 0.-5 C, ok\n" ∧
    (am2301_show (stateFacing (frameDurations [0x00, 0x00, 0x80, 0x0F, 0x8F]))
        (fun _ => 0xAA) (fun _ => 0)).map Prod.fst = some "0.0 RH, -1.-5 C, ok\n" ∧
    formatLine ⟨"ok", -5, 0⟩ = "0.0 RH, 0.-5 C, ok\n" ∧
    formatLine ⟨"ok", -15, 0⟩ = "0.0 RH, -1.-5 C, ok\n" ∧
    formatLine ⟨"ok", 250, 652⟩ = "65.2 RH, 25.0 C, ok\n" := by
  set_option maxRecDepth 100000 in
  refine ⟨by decide, by decide, by decide, by decide, by decide⟩

/-! ## Lemmas on the measurement throttle -/

theorem run_last_time (s s1 : State) (data0 nstimes0 : Nat → Nat)
    (h : run s data0 nstimes0 = some s1) : s1.last_time = s.last_time := by
  cases h1 : expectPulse LOW s.world with
  | none => simp [run, h1] at h
  | some p1 =>
    obtain ⟨r1, w1⟩ := p1
    by_cases hr1 : r1 = WAITTIMEOUT
    · subst hr1
      rw [run_low_timeout s data0 nstimes0 w1 h1] at h
      simp only [Option.some.injEq] at h
      rw [← h]
    · cases h2 : expectPulse HIGH w1 with
      | none => simp [run, h1, hr1, h2] at h
      | some p2 =>
        obtain ⟨r2, w2⟩ := p2
        by_cases hr2 : r2 = WAITTIMEOUT
        · subst hr2
          rw [run_high_timeout s data0 nstimes0 r1 w1 w2 h1 hr1 h2] at h
          simp only [Option.some.injEq] at h
          rw [← h]
        · cases h3 : captureLoop nstimes0 w2 40 with
          | none => simp [run, h1, hr1, h2, hr2, h3] at h
          | some cap =>
            rw [run_captured s data0 nstimes0 r1 r2 w1 w2 cap h1 hr1 h2 hr2 h3] at h
            simp only [Option.some.injEq] at h
            rw [← h]


theorem toULong_toLong (bits last : Nat) : toULong bits (toLong bits last) = last % 2 ^ bits := by
  have hpos : (0 : Int) < ((2 ^ bits : Nat) : Int) := by positivity
  have hlt : ((last % 2 ^ bits : Nat) : Int) < ((2 ^ bits : Nat) : Int) := by
    exact_mod_cast Nat.mod_lt last (by positivity)
  have hnn : (0 : Int) ≤ ((last % 2 ^ bits : Nat) : Int) := Int.natCast_nonneg _
  unfold toULong toLong
  split
  · rw [Int.emod_eq_of_lt hnn hlt, Int.toNat_natCast]
  · rw [Int.emod_sub_cancel, Int.emod_eq_of_lt hnn hlt, Int.toNat_natCast]

theorem kernel_msecs_cast (bits HZ now last : Nat) (hb : 32 ≤ bits) :
    ((kernel_jiffies_to_msecs HZ
        ((now % 2 ^ bits + (2 ^ bits - last % 2 ^ bits)) % 2 ^ bits) : Nat) : Int)
      = elapsed_ms HZ now last % 2 ^ 32 := by
  have hle : last % 2 ^ bits ≤ 2 ^ bits := Nat.le_of_lt (Nat.mod_lt last (by positivity))
  have hdvd : ((2 : Int) ^ 32) ∣ ((2 : Int) ^ bits) := pow_dvd_pow 2 hb
  have hM : ((2 : Int) ^ bits) ≡ 0 [ZMOD (2 : Int) ^ 32] :=
    (Int.modEq_zero_iff_dvd).mpr hdvd
  have hnow : ((now : Int) % (2 : Int) ^ bits) ≡ (now : Int) [ZMOD (2 : Int) ^ 32] :=
    Int.ModEq.of_dvd hdvd (Int.mod_modEq _ _)
  have hlast : ((last : Int) % (2 : Int) ^ bits) ≡ (last : Int) [ZMOD (2 : Int) ^ 32] :=
    Int.ModEq.of_dvd hdvd (Int.mod_modEq _ _)
  have hdiff : (((now : Int) % (2 : Int) ^ bits
        + ((2 : Int) ^ bits - (last : Int) % (2 : Int) ^ bits)) % (2 : Int) ^ bits)
      ≡ (now : Int) - (last : Int) [ZMOD (2 : Int) ^ 32] := by
    refine (Int.ModEq.of_dvd hdvd (Int.mod_modEq _ _)).trans ?_
    have h1 := hnow.add (hM.sub hlast)
    have e : (now : Int) + (0 - (last : Int)) = (now : Int) - (last : Int) := by ring
    rw [e] at h1
    exact h1
  unfold kernel_jiffies_to_msecs elapsed_ms
  push_cast [Nat.cast_sub hle]
  exact (hdiff.mul_left _)

theorem toLong_of_lt (bits n : Nat) (hb : 32 ≤ bits) (hn : n < 2 ^ 32) :
    (n < 2 ^ 31 → toLong bits n = (n : Int)) ∧
    (toLong bits n = (n : Int) ∨ toLong bits n < 0) := by
  have h32 : 2 ^ 32 ≤ 2 ^ bits := Nat.pow_le_pow_right (by decide) hb
  have h31 : 2 ^ 31 ≤ 2 ^ (bits - 1) := Nat.pow_le_pow_right (by decide) (by omega)
  have hmod : n % 2 ^ bits = n := Nat.mod_eq_of_lt (by omega)
  unfold toLong
  rw [hmod]
  refine ⟨?_, ?_⟩
  · intro hlt
    rw [if_pos (by omega)]
  · split
    · exact Or.inl rfl
    · right
      have : (n : Int) < ((2 ^ bits : Nat) : Int) := by exact_mod_cast (by omega : n < 2 ^ bits)
      omega

theorem time_since_last_read_kernel (bits HZ now last : Nat) (hb : 32 ≤ bits) :
    time_since_last_read bits (kernel_jiffies_to_msecs HZ) (now % 2 ^ bits) (toLong bits last)
      = toLong bits (elapsed_ms HZ now last % 2 ^ 32).toNat := by
  have hc := kernel_msecs_cast bits HZ now last hb
  have hlt : kernel_jiffies_to_msecs HZ
      ((now % 2 ^ bits + (2 ^ bits - last % 2 ^ bits)) % 2 ^ bits) < 2 ^ 32 := by
    unfold kernel_jiffies_to_msecs
    exact Nat.mod_lt _ (by decide)
  unfold time_since_last_read
  rw [toULong_toLong, Nat.mod_mod, Nat.mod_eq_of_lt hlt, ← hc, Int.toNat_natCast]

theorem am2301_open_sleep (bits : Nat) (jiffies_to_msecs : Nat → Nat)
    (jiffies1 jiffies2 : Nat) (s : State)
    (h : 0 ≤ time_since_last_read bits jiffies_to_msecs jiffies1 s.last_time ∧
      time_since_last_read bits jiffies_to_msecs jiffies1 s.last_time < 2000) :
    (am2301_open bits jiffies_to_msecs jiffies1 jiffies2 s).actions
      = s.actions ++ [Action.msleep
          (2000 - time_since_last_read bits jiffies_to_msecs jiffies1 s.last_time).toNat] := by
  generalize ht : time_since_last_read bits jiffies_to_msecs jiffies1 s.last_time = t at h
  have hmod : (MEASUREMENT_PERIOD - t) % 2 ^ 32 = 2000 - t := by
    unfold MEASUREMENT_PERIOD
    omega
  unfold am2301_open
  simp only [ht]
  rw [if_pos (by unfold MEASUREMENT_PERIOD; exact h), hmod]

theorem am2301_open_no_sleep (bits : Nat) (jiffies_to_msecs : Nat → Nat)
    (jiffies1 jiffies2 : Nat) (s : State)
    (h : time_since_last_read bits jiffies_to_msecs jiffies1 s.last_time < 0 ∨
      2000 ≤ time_since_last_read bits jiffies_to_msecs jiffies1 s.last_time) :
    (am2301_open bits jiffies_to_msecs jiffies1 jiffies2 s).actions = s.actions := by
  generalize ht : time_since_last_read bits jiffies_to_msecs jiffies1 s.last_time = t at h
  unfold am2301_open
  simp only [ht]
  rw [if_neg (by unfold MEASUREMENT_PERIOD; omega)]

theorem am2301_open_by_residue (bits HZ now last jiffies2 : Nat) (s : State)
    (hb : 32 ≤ bits) (hlast : s.last_time = toLong bits last) :
    (elapsed_ms HZ now last % 2 ^ 32 < 2000 →
      (am2301_open bits (kernel_jiffies_to_msecs HZ) (now % 2 ^ bits) jiffies2 s).actions
        = s.actions ++ [Action.msleep (2000 - elapsed_ms HZ now last % 2 ^ 32).toNat]) ∧
    (2000 ≤ elapsed_ms HZ now last % 2 ^ 32 →
      (am2301_open bits (kernel_jiffies_to_msecs HZ) (now % 2 ^ bits) jiffies2 s).actions
        = s.actions) := by
  have ht := time_since_last_read_kernel bits HZ now last hb
  rw [← hlast] at ht
  have hnn : 0 ≤ elapsed_ms HZ now last % 2 ^ 32 := Int.emod_nonneg _ (by decide)
  have hlt : elapsed_ms HZ now last % 2 ^ 32 < 2 ^ 32 := Int.emod_lt_of_pos _ (by decide)
  have hcast : (((elapsed_ms HZ now last % 2 ^ 32).toNat : Nat) : Int)
      = elapsed_ms HZ now last % 2 ^ 32 := Int.toNat_of_nonneg hnn
  have hn : (elapsed_ms HZ now last % 2 ^ 32).toNat < 2 ^ 32 := by omega
  obtain ⟨hsmall, hcases⟩ := toLong_of_lt bits _ hb hn
  refine ⟨?_, ?_⟩
  · intro h
    have e : time_since_last_read bits (kernel_jiffies_to_msecs HZ) (now % 2 ^ bits) s.last_time
        = elapsed_ms HZ now last % 2 ^ 32 := by
      rw [ht, hsmall (by omega), hcast]
    have hs := am2301_open_sleep bits (kernel_jiffies_to_msecs HZ) (now % 2 ^ bits) jiffies2 s
      (by rw [e]; exact ⟨hnn, h⟩)
    rw [e] at hs
    exact hs
  · intro h
    apply am2301_open_no_sleep
    rw [ht]
    rcases hcases with hc | hc
    · right
      rw [hc, hcast]
      exact h
    · exact Or.inl hc

/-! ## Claim on the measurement throttle -/

/-- Counterexample for C5 as stated: with 100 ticks per second and a 32-bit
`long`, a read 429,496,730 ticks after the recorded measurement is
4,294,967,300 ms later, far more than 2000 ms, yet `jiffies_to_msecs` returns
the `unsigned int` 4 and `am2301_open` requests a sleep of 1996 ms.  The same
happens with a 64-bit `long` and 1000 ticks per second. -/
theorem am2301_open_sleeps_after_long_gap :
    elapsed_ms 100 429496730 0 = 4294967300 ∧
    time_since_last_read 32 (kernel_jiffies_to_msecs 100) (429496730 % 2 ^ 32) (toLong 32 0) = 4 ∧
    (am2301_open 32 (kernel_jiffies_to_msecs 100) (429496730 % 2 ^ 32) 429496930
        { (stateFacing []) with last_time := toLong 32 0 }).actions = [Action.msleep 1996] ∧
    elapsed_ms 1000 4294967300 0 = 4294967300 ∧
    (am2301_open 64 (kernel_jiffies_to_msecs 1000) (4294967300 % 2 ^ 64) 4294969296
        { (stateFacing []) with last_time := toLong 64 0 }).actions = [Action.msleep 1996] := by
  decide

/-- Claim C5, amended: let `elapsed` be the milliseconds between the recorded
last measurement (tick `last`) and now (tick `now`), and `e = elapsed mod 2^32`
the `unsigned int` that `jiffies_to_msecs` returns.  `am2301_open` requests
one sleep of exactly `2000 - e` ms when `e < 2000` and none otherwise.  Hence
for `0 <= elapsed < 2000` it sleeps exactly `2000 - elapsed` ms, and for
`2000 <= elapsed < 2^32` or `-(2^32 - 2000) <= elapsed < 0` it does not sleep.
In every case `last_time` then holds the current tick counter, and that is
the value in place while the decode of the same read runs. -/
theorem am2301_open_throttle (bits HZ now last jiffies2 : Nat) (s : State)
    (hb : 32 ≤ bits) (hlast : s.last_time = toLong bits last) :
    (elapsed_ms HZ now last % 2 ^ 32 < 2000 →
      ∃ n : Nat, (n : Int) = 2000 - elapsed_ms HZ now last % 2 ^ 32 ∧
        (am2301_open bits (kernel_jiffies_to_msecs HZ) (now % 2 ^ bits) jiffies2 s).actions
          = s.actions ++ [Action.msleep n]) ∧
    (2000 ≤ elapsed_ms HZ now last % 2 ^ 32 →
      (am2301_open bits (kernel_jiffies_to_msecs HZ) (now % 2 ^ bits) jiffies2 s).actions
        = s.actions) ∧
    (0 ≤ elapsed_ms HZ now last ∧ elapsed_ms HZ now last < 2000 →
      ∃ n : Nat, (n : Int) = 2000 - elapsed_ms HZ now last ∧
        (am2301_open bits (kernel_jiffies_to_msecs HZ) (now % 2 ^ bits) jiffies2 s).actions
          = s.actions ++ [Action.msleep n]) ∧
    (2000 ≤ elapsed_ms HZ now last ∧ elapsed_ms HZ now last < 2 ^ 32 →
      (am2301_open bits (kernel_jiffies_to_msecs HZ) (now % 2 ^ bits) jiffies2 s).actions
        = s.actions) ∧
    (-(2 ^ 32 - 2000) ≤ elapsed_ms HZ now last ∧ elapsed_ms HZ now last < 0 →
      (am2301_open bits (kernel_jiffies_to_msecs HZ) (now % 2 ^ bits) jiffies2 s).actions
        = s.actions) ∧
    (am2301_open bits (kernel_jiffies_to_msecs HZ) (now % 2 ^ bits) jiffies2 s).last_time
      = toLong bits jiffies2 ∧
    (∀ data0 nstimes0 line s2,
      read_sensor bits (kernel_jiffies_to_msecs HZ) (now % 2 ^ bits) jiffies2 s data0 nstimes0
        = some (line, s2) →
      run (am2301_open bits (kernel_jiffies_to_msecs HZ) (now % 2 ^ bits) jiffies2 s)
        data0 nstimes0 = some s2 ∧
      s2.last_time = toLong bits jiffies2) := by
  obtain ⟨hsleep, hnone⟩ := am2301_open_by_residue bits HZ now last jiffies2 s hb hlast
  have hnn : 0 ≤ elapsed_ms HZ now last % 2 ^ 32 := Int.emod_nonneg _ (by decide)
  have hlt : (am2301_open bits (kernel_jiffies_to_msecs HZ) (now % 2 ^ bits) jiffies2 s).last_time
      = toLong bits jiffies2 := by
    unfold am2301_open
    rfl
  refine ⟨?_, hnone, ?_, ?_, ?_, hlt, ?_⟩
  · intro h
    exact ⟨_, Int.toNat_of_nonneg (by omega), hsleep h⟩
  · intro h
    have e : elapsed_ms HZ now last % 2 ^ 32 = elapsed_ms HZ now last :=
      Int.emod_eq_of_lt h.1 (by omega)
    rw [e] at hsleep
    exact ⟨_, Int.toNat_of_nonneg (by omega), hsleep h.2⟩
  · intro h
    have e : elapsed_ms HZ now last % 2 ^ 32 = elapsed_ms HZ now last :=
      Int.emod_eq_of_lt (by omega) h.2
    exact hnone (by rw [e]; exact h.1)
  · intro h
    exact hnone (by omega)
  · intro data0 nstimes0 line s2 h
    unfold read_sensor am2301_show at h
    cases hrun : run (am2301_open bits (kernel_jiffies_to_msecs HZ) (now % 2 ^ bits) jiffies2 s)
        data0 nstimes0 with
    | none => simp [hrun] at h
    | some s3 =>
      simp only [hrun, Option.some.injEq, Prod.mk.injEq] at h
      rw [← h.2]
      exact ⟨rfl, by rw [run_last_time _ _ _ _ hrun, hlt]⟩

/-- Witness for C5: a 32-bit `long`, 100 ticks per second, last measurement at
tick 1000, a sensor sending `00 00 80 0A 8A`.  A read at tick 1050 (500 ms
later) requests a sleep of 1500 ms, and its decode runs and ends with
`last_time` already at the tick 1200 read after the sleep; a read at tick 1300
(3000 ms later) requests no sleep. -/
theorem am2301_open_throttle_witness :
    (∃ n : Nat, (n : Int) = 2000 - elapsed_ms 100 1050 1000 ∧
      (am2301_open 32 (kernel_jiffies_to_msecs 100) (1050 % 2 ^ 32) 1200
          { (stateFacing (frameDurations [0x00, 0x00, 0x80, 0x0A, 0x8A])) with
            last_time := 1000 }).actions
        = [] ++ [Action.msleep n]) ∧
    (am2301_open 32 (kernel_jiffies_to_msecs 100) (1300 % 2 ^ 32) 1300
        { (stateFacing (frameDurations [0x00, 0x00, 0x80, 0x0A, 0x8A])) with
          last_time := 1000 }).actions = [] ∧
    (run (am2301_open 32 (kernel_jiffies_to_msecs 100) (1050 % 2 ^ 32) 1200
          { (stateFacing (frameDurations [0x00, 0x00, 0x80, 0x0A, 0x8A])) with
            last_time := 1000 }) (fun _ => 0xAA) (fun _ => 0)
        = some
          { last_time := 1200, returnValue := ⟨"ok", -10, 0⟩, irqEnabled := true,
            world := ⟨[], []⟩,
            actions := [Action.msleep 1500, Action.gpio_direction_input, Action.mdelay 1,
              Action.gpio_direction_output 0, Action.udelay 1100,
              Action.gpio_direction_input, Action.udelay 55] } ∧
      (1200 : Int) = toLong 32 1200) := by
  set_option maxRecDepth 100000 in
  exact
    ⟨(am2301_open_throttle 32 100 1050 1000 1200
        { (stateFacing (frameDurations [0x00, 0x00, 0x80, 0x0A, 0x8A])) with last_time := 1000 }
        (by decide) (by decide)).2.2.1 (by decide),
     (am2301_open_throttle 32 100 1300 1000 1300
        { (stateFacing (frameDurations [0x00, 0x00, 0x80, 0x0A, 0x8A])) with last_time := 1000 }
        (by decide) (by decide)).2.2.2.1 (by decide),
     (am2301_open_throttle 32 100 1050 1000 1200
        { (stateFacing (frameDurations [0x00, 0x00, 0x80, 0x0A, 0x8A])) with last_time := 1000 }
        (by decide) (by decide)).2.2.2.2.2.2 (fun _ => 0xAA) (fun _ => 0)
        "0.0 RH, -1.0 C, ok\n"
        { last_time := 1200, returnValue := ⟨"ok", -10, 0⟩, irqEnabled := true,
          world := ⟨[], []⟩,
          actions := [Action.msleep 1500, Action.gpio_direction_input, Action.mdelay 1,
            Action.gpio_direction_output 0, Action.udelay 1100,
            Action.gpio_direction_input, Action.udelay 55] }
        (by decide)⟩

end AM2301
